import Mathlib

/-!
Verification of the ndn-js core consisting of ForwardingFlags
(src/unnamed/part_000) and the KeyParams hierarchy
(src/js/security/key-params.js), as a shallow embedding in Lean 4.

JavaScript objects are modelled as Lean structures; mutating methods become
functions from the old state to the new state (a method that returns `this`
for chaining is a function returning the updated state); constructors that
can throw return `Except String`, where the error string is the message of
the thrown JS `Error` (the condition the specification calls
InvalidArgument).  JavaScript numbers reaching the bitwise operators are
modelled as `Int` with the ToInt32/ToUint32 truncation made explicit.
-/

namespace NdnJs

/-! ## ForwardingFlags (src/unnamed/part_000) -/

/-- A ForwardingFlags record: two boolean flags and an optional numeric
origin field.  In the JS source `origin` is a number or `null`; `null` is
modelled as `none`. -/
structure ForwardingFlags where
  childInherit : Bool
  capture : Bool
  origin : Option Int
deriving Repr, DecidableEq

/-- The JS constructor `ForwardingFlags(value)`: with an existing
ForwardingFlags argument it copies the three fields; otherwise (no
argument) it sets the defaults childInherit = true, capture = false,
origin = null. -/
def ForwardingFlags.construct (value : Option ForwardingFlags) : ForwardingFlags :=
  match value with
  | some v =>
      { childInherit := v.childInherit, capture := v.capture, origin := v.origin }
  | none =>
      { childInherit := true, capture := false, origin := none }

/-- ForwardingFlags.NfdForwardingFlags_CHILD_INHERIT = 1 -/
def ForwardingFlags.NfdForwardingFlags_CHILD_INHERIT : Nat := 1

/-- ForwardingFlags.NfdForwardingFlags_CAPTURE = 2 -/
def ForwardingFlags.NfdForwardingFlags_CAPTURE : Nat := 2

/-- JS ToUint32 truncation of an integral number: the unsigned 32-bit value
with the same low 32 bits (for a negative argument, its two of-complement
pattern).  The JS `&` operator in the source operates on exactly these
bits. -/
def jsToUint32 (v : Int) : Nat := (v % 4294967296).toNat

/-- `getNfdForwardingFlags()`: starts from result = 0 and ORs in
CHILD_INHERIT when childInherit is set and CAPTURE when capture is set. -/
def ForwardingFlags.getNfdForwardingFlags (f : ForwardingFlags) : Nat :=
  let result : Nat := 0
  let result := if f.childInherit
    then result ||| ForwardingFlags.NfdForwardingFlags_CHILD_INHERIT else result
  let result := if f.capture
    then result ||| ForwardingFlags.NfdForwardingFlags_CAPTURE else result
  result

/-- `setNfdForwardingFlags(nfdForwardingFlags)`: sets childInherit from bit
CHILD_INHERIT and capture from bit CAPTURE of the argument, leaves origin
alone, and returns `this` (here: the updated state). -/
def ForwardingFlags.setNfdForwardingFlags (f : ForwardingFlags) (nfdForwardingFlags : Int) :
    ForwardingFlags :=
  { f with
    childInherit :=
      (jsToUint32 nfdForwardingFlags &&& ForwardingFlags.NfdForwardingFlags_CHILD_INHERIT) != 0
    capture :=
      (jsToUint32 nfdForwardingFlags &&& ForwardingFlags.NfdForwardingFlags_CAPTURE) != 0 }

/-- `getChildInherit()` -/
def ForwardingFlags.getChildInherit (f : ForwardingFlags) : Bool := f.childInherit

/-- `getCapture()` -/
def ForwardingFlags.getCapture (f : ForwardingFlags) : Bool := f.capture

/-- `getOrigin()` -/
def ForwardingFlags.getOrigin (f : ForwardingFlags) : Option Int := f.origin

/-- `setChildInherit(childInherit)`: plain field assignment, returns `this`. -/
def ForwardingFlags.setChildInherit (f : ForwardingFlags) (childInherit : Bool) :
    ForwardingFlags :=
  { f with childInherit := childInherit }

/-- `setCapture(capture)`: plain field assignment, returns `this`. -/
def ForwardingFlags.setCapture (f : ForwardingFlags) (capture : Bool) : ForwardingFlags :=
  { f with capture := capture }

/-- `setOrigin(origin)`: plain field assignment, returns `this`. -/
def ForwardingFlags.setOrigin (f : ForwardingFlags) (origin : Option Int) : ForwardingFlags :=
  { f with origin := origin }

/-- One mutation step on a ForwardingFlags object: any of the four mutating
methods of the source, with its argument. -/
inductive FFMutation where
  | setChildInherit (b : Bool)
  | setCapture (b : Bool)
  | setOrigin (o : Option Int)
  | setNfdForwardingFlags (v : Int)
deriving Repr, DecidableEq

/-- Apply a mutation step to an object state, using the source setters. -/
def FFMutation.apply : FFMutation → ForwardingFlags → ForwardingFlags
  | .setChildInherit b, f => f.setChildInherit b
  | .setCapture b, f => f.setCapture b
  | .setOrigin o, f => f.setOrigin o
  | .setNfdForwardingFlags v, f => f.setNfdForwardingFlags v

/-- A two-object heap holding an original ForwardingFlags and a copy of it.
The JS copy constructor assigns the three primitive field values of the
source object to fresh fields of a new object, so the two objects share no
mutable storage; mutating the copy therefore only rewrites the copy slot. -/
def mutateCopy (m : FFMutation) (heap : ForwardingFlags × ForwardingFlags) :
    ForwardingFlags × ForwardingFlags :=
  (heap.1, m.apply heap.2)

/-! ## KeyParams hierarchy (src/js/security/key-params.js) -/

/-- Modelled from the spec: the KeyIdType enumeration is defined in
src/js/security/key-id-type.js, which is outside the given sources.  The
spec names three policies (user-specified, digest-derived, random); in the
JS source the constants are numbers, with the codes of the ndn-cxx
convention the file is ported from.  No claim depends on the particular
codes, only on the constants being distinct. -/
def KeyIdType.USER_SPECIFIED : Nat := 0

/-- Modelled from the spec: the digest-derived key id policy code. -/
def KeyIdType.SHA256 : Nat := 1

/-- Modelled from the spec: the random key id policy code. -/
def KeyIdType.RANDOM : Nat := 2

/-- Modelled from the spec: the KeyType enumeration is defined in
src/js/security/security-types.js, outside the given sources.
key-params.js only stores and returns key type values, never inspects
them, so an opaque enumeration is faithful. -/
inductive KeyType where
  | RSA
  | ECDSA
  | AES
deriving Repr, DecidableEq

/-- Modelled from the spec: Name.Component (src/js/name.js, outside the
given sources) wraps a possibly-empty byte sequence (a KeyId); the only
operation key-params.js uses is the emptiness check
`getValue().size() == 0`. -/
structure NameComponent where
  value : List Nat
deriving Repr, DecidableEq

/-- `getValue()` of a Name.Component: its byte sequence. -/
def NameComponent.getValue (c : NameComponent) : List Nat := c.value

/-- The size of the byte sequence, as used in `getValue().size()`. -/
def NameComponent.valueSize (c : NameComponent) : Nat := c.value.length

/-- `new Name.Component()`: the empty component. -/
def NameComponent.mkEmpty : NameComponent := { value := [] }

/-- A JavaScript argument value as the variant constructors receive it:
`undefined`, a number (a size or a KeyIdType code), or a Name.Component. -/
inductive JsVal where
  | undef
  | num (n : Nat)
  | comp (c : NameComponent)
deriving Repr, DecidableEq

/-- The second argument of the base KeyParams constructor after the variant
constructors have resolved defaults: either a Name.Component key id or a
KeyIdType number. -/
inductive KeyIdTypeOrKeyId where
  | comp (keyId : NameComponent)
  | num (keyIdType : Nat)
deriving Repr, DecidableEq

/-- The fields set by the base KeyParams constructor. -/
structure KeyParams where
  keyType_ : KeyType
  keyIdType_ : Nat
  keyId_ : NameComponent
deriving Repr, DecidableEq

/-- The base constructor `KeyParams(keyType, keyIdTypeOrKeyId)`: with a
Name.Component it requires a non-empty key id and sets
keyIdType = USER_SPECIFIED; with a KeyIdType it requires the value to
differ from USER_SPECIFIED and sets an empty placeholder key id.  A throw
becomes `Except.error` carrying the JS error message. -/
def KeyParams.construct (keyType : KeyType) (keyIdTypeOrKeyId : KeyIdTypeOrKeyId) :
    Except String KeyParams :=
  match keyIdTypeOrKeyId with
  | .comp keyId =>
      if keyId.getValue.length = 0 then
        .error "KeyParams: keyId is empty"
      else
        .ok { keyType_ := keyType, keyIdType_ := KeyIdType.USER_SPECIFIED, keyId_ := keyId }
  | .num keyIdType =>
      if keyIdType = KeyIdType.USER_SPECIFIED then
        .error "KeyParams: KeyIdType is USER_SPECIFIED"
      else
        .ok { keyType_ := keyType, keyIdType_ := keyIdType, keyId_ := NameComponent.mkEmpty }

/-- `getKeyType()` -/
def KeyParams.getKeyType (p : KeyParams) : KeyType := p.keyType_

/-- `getKeyIdType()` -/
def KeyParams.getKeyIdType (p : KeyParams) : Nat := p.keyIdType_

/-- `getKeyId()` -/
def KeyParams.getKeyId (p : KeyParams) : NameComponent := p.keyId_

/-- An instance of any of the three concrete variants: the base fields plus
the one size field the variant constructor adds.  The stored size is kept
as the raw JS value assigned to it (`this.size_ = arg2` can store whatever
was passed). -/
structure VariantKeyParams extends KeyParams where
  size_ : JsVal
deriving Repr, DecidableEq

/-- `getKeySize()`, defined identically by each variant: returns the stored
size value. -/
def VariantKeyParams.getKeySize (p : VariantKeyParams) : JsVal := p.size_

/-- `RsaKeyParams.getDefaultSize()` = 2048 -/
def RsaKeyParams.getDefaultSize : Nat := 2048

/-- `RsaKeyParams.getType()` = KeyType.RSA -/
def RsaKeyParams.getType : KeyType := KeyType.RSA

/-- The `RsaKeyParams(keyIdOrSize, arg2)` constructor.  With a
Name.Component first argument it calls the base with that key id and uses
arg2 as the size (default size when arg2 is undefined).  Otherwise, when
the first argument is defined it is the size and arg2 (default RANDOM) is
passed to the base as the key id type; a Name.Component arg2 reaches the
base as a key id, exactly as in the JS dispatch.  With an undefined first
argument the base gets RANDOM and the size is the default, and arg2 is
never read. -/
def RsaKeyParams (keyIdOrSize : JsVal) (arg2 : JsVal) : Except String VariantKeyParams :=
  match keyIdOrSize with
  | .comp keyId =>
      (KeyParams.construct RsaKeyParams.getType (.comp keyId)).map fun base =>
        { toKeyParams := base,
          size_ := match arg2 with
            | .undef => .num RsaKeyParams.getDefaultSize
            | a => a }
  | .num size =>
      (KeyParams.construct RsaKeyParams.getType
        (match arg2 with
          | .undef => .num KeyIdType.RANDOM
          | .num n => .num n
          | .comp c => .comp c)).map fun base =>
        { toKeyParams := base, size_ := .num size }
  | .undef =>
      (KeyParams.construct RsaKeyParams.getType (.num KeyIdType.RANDOM)).map fun base =>
        { toKeyParams := base, size_ := .num RsaKeyParams.getDefaultSize }

/-- `EcdsaKeyParams.getDefaultSize()` = 256 -/
def EcdsaKeyParams.getDefaultSize : Nat := 256

/-- `EcdsaKeyParams.getType()` = KeyType.ECDSA -/
def EcdsaKeyParams.getType : KeyType := KeyType.ECDSA

/-- The `EcdsaKeyParams(keyIdOrSize, arg2)` constructor, same shape as
RsaKeyParams with the ECDSA type tag and default size. -/
def EcdsaKeyParams (keyIdOrSize : JsVal) (arg2 : JsVal) : Except String VariantKeyParams :=
  match keyIdOrSize with
  | .comp keyId =>
      (KeyParams.construct EcdsaKeyParams.getType (.comp keyId)).map fun base =>
        { toKeyParams := base,
          size_ := match arg2 with
            | .undef => .num EcdsaKeyParams.getDefaultSize
            | a => a }
  | .num size =>
      (KeyParams.construct EcdsaKeyParams.getType
        (match arg2 with
          | .undef => .num KeyIdType.RANDOM
          | .num n => .num n
          | .comp c => .comp c)).map fun base =>
        { toKeyParams := base, size_ := .num size }
  | .undef =>
      (KeyParams.construct EcdsaKeyParams.getType (.num KeyIdType.RANDOM)).map fun base =>
        { toKeyParams := base, size_ := .num EcdsaKeyParams.getDefaultSize }

/-- `AesKeyParams.getDefaultSize()` = 64 -/
def AesKeyParams.getDefaultSize : Nat := 64

/-- `AesKeyParams.getType()` = KeyType.AES -/
def AesKeyParams.getType : KeyType := KeyType.AES

/-- The `AesKeyParams(keyIdOrSize, arg2)` constructor, same shape as
RsaKeyParams with the AES type tag and default size. -/
def AesKeyParams (keyIdOrSize : JsVal) (arg2 : JsVal) : Except String VariantKeyParams :=
  match keyIdOrSize with
  | .comp keyId =>
      (KeyParams.construct AesKeyParams.getType (.comp keyId)).map fun base =>
        { toKeyParams := base,
          size_ := match arg2 with
            | .undef => .num AesKeyParams.getDefaultSize
            | a => a }
  | .num size =>
      (KeyParams.construct AesKeyParams.getType
        (match arg2 with
          | .undef => .num KeyIdType.RANDOM
          | .num n => .num n
          | .comp c => .comp c)).map fun base =>
        { toKeyParams := base, size_ := .num size }
  | .undef =>
      (KeyParams.construct AesKeyParams.getType (.num KeyIdType.RANDOM)).map fun base =>
        { toKeyParams := base, size_ := .num AesKeyParams.getDefaultSize }

/-- The predicate of claim C8, taken from the words of the spec: an explicit
non-empty key id was supplied to a variant constructor.  This happens when
the first argument is a non-empty Name.Component, or when the first
argument is a number and the second is a non-empty Name.Component (which
the source then routes to the base constructor as the key id). -/
def explicitKeyIdSupplied (keyIdOrSize : JsVal) (arg2 : JsVal) : Bool :=
  match keyIdOrSize, arg2 with
  | .comp c, _ => c.valueSize != 0
  | .num _, .comp c => c.valueSize != 0
  | _, _ => false

/-! ## Helper lemmas -/

/-- Bit 0 of a natural number is set exactly when it is odd. -/
theorem nat_and_one_ne_zero (n : Nat) : (n &&& 1 ≠ 0) ↔ n % 2 = 1 := by
  rw [Nat.and_one_is_mod]
  omega

/-- Bit 1 of a natural number is set exactly when its residue mod 4 is 2
or 3. -/
theorem nat_and_two_ne_zero (n : Nat) : (n &&& 2 ≠ 0) ↔ 2 ≤ n % 4 := by
  have h2 : n &&& 2 = (n.testBit 1).toNat * 2 := by
    simpa using Nat.and_two_pow n 1
  have h3 : n.testBit 1 = decide (n / 2 % 2 = 1) := by
    rw [Nat.testBit_add_one, Nat.testBit_zero]
  rw [h2, h3]
  by_cases hb : n / 2 % 2 = 1
  · simp only [hb, decide_True, Bool.toNat_true]
    omega
  · simp only [hb, decide_False, Bool.toNat_false]
    omega

/-- The low 32-bit truncation preserves the residue mod 2. -/
theorem jsToUint32_mod_two (v : Int) : (jsToUint32 v % 2 = 1) ↔ v % 2 = 1 := by
  unfold jsToUint32
  omega

/-- The low 32-bit truncation preserves the residue mod 4. -/
theorem jsToUint32_mod_four (v : Int) : (2 ≤ jsToUint32 v % 4) ↔ 2 ≤ v % 4 := by
  unfold jsToUint32
  omega

/-! ## Claim theorems -/

/-- C1: for every ForwardingFlags state, getNfdForwardingFlags returns
exactly (childInherit ? 1 : 0) | (capture ? 2 : 0); since the two bits are
disjoint this equals the sum of the contributions, so the value is 1 for
{true,false}, 2 for {false,true}, 3 for {true,true} and 0 for
{false,false}.  The function is a pure total Lean function of the state,
so it cannot fail and leaves the state unchanged. -/
theorem c1_getNfdForwardingFlags_encoding (f : ForwardingFlags) :
    f.getNfdForwardingFlags =
      ((if f.childInherit then 1 else 0) ||| (if f.capture then 2 else 0)) ∧
    f.getNfdForwardingFlags =
      ((if f.childInherit then 1 else 0) + (if f.capture then 2 else 0)) := by
  rcases f with ⟨ci, cap, o⟩
  cases ci <;> cases cap <;>
    simp [ForwardingFlags.getNfdForwardingFlags,
      ForwardingFlags.NfdForwardingFlags_CHILD_INHERIT,
      ForwardingFlags.NfdForwardingFlags_CAPTURE]

/-- C2: for every integer v in [0, 3], decoding v into a default-constructed
ForwardingFlags with setNfdForwardingFlags and re-encoding with
getNfdForwardingFlags yields v again. -/
theorem c2_nfd_flags_round_trip (v : Int) (h0 : 0 ≤ v) (h3 : v ≤ 3) :
    (((ForwardingFlags.construct none).setNfdForwardingFlags v).getNfdForwardingFlags : Int)
      = v := by
  interval_cases v <;> decide

/-- Witness for C2 at v = 2. -/
theorem c2_nfd_flags_round_trip_witness :
    (0 : Int) ≤ 2 ∧ (2 : Int) ≤ 3 ∧
    (((ForwardingFlags.construct none).setNfdForwardingFlags 2).getNfdForwardingFlags : Int)
      = 2 :=
  ⟨by decide, by decide, c2_nfd_flags_round_trip 2 (by decide) (by decide)⟩

/-- C7: for every state and every integer v, setNfdForwardingFlags sets
childInherit exactly when bit 0 of v is set (v is odd in two-complement
terms, v % 2 = 1 with Euclidean mod) and capture exactly when bit 1 of v
is set (v % 4 is 2 or 3); it never fails (it is total, higher bits being
ignored), it leaves origin exactly as it was, and it returns the updated
object itself (modelled as the returned state). -/
theorem c7_setNfdForwardingFlags_bits (f : ForwardingFlags) (v : Int) :
    ((f.setNfdForwardingFlags v).childInherit = true ↔ v % 2 = 1) ∧
    ((f.setNfdForwardingFlags v).capture = true ↔ 2 ≤ v % 4) ∧
    (f.setNfdForwardingFlags v).origin = f.origin := by
  refine ⟨?_, ?_, rfl⟩
  · show ((jsToUint32 v &&& ForwardingFlags.NfdForwardingFlags_CHILD_INHERIT) != 0) = true
      ↔ v % 2 = 1
    rw [bne_iff_ne]
    exact (nat_and_one_ne_zero (jsToUint32 v)).trans (jsToUint32_mod_two v)
  · show ((jsToUint32 v &&& ForwardingFlags.NfdForwardingFlags_CAPTURE) != 0) = true
      ↔ 2 ≤ v % 4
    rw [bne_iff_ne]
    exact (nat_and_two_ne_zero (jsToUint32 v)).trans (jsToUint32_mod_four v)

/-- C9: default construction yields childInherit = true, capture = false
and origin absent; copy construction duplicates all three fields, and in
the two-object heap holding the original and the copy, applying any of the
four mutating methods to the copy leaves every field of the original
unchanged (the JS copy assigns primitive values to fresh fields, so the
objects are disjoint). -/
theorem c9_construction_and_copy_independence (f : ForwardingFlags) (m : FFMutation) :
    ForwardingFlags.construct none =
      { childInherit := true, capture := false, origin := none } ∧
    ForwardingFlags.construct (some f) = f ∧
    (mutateCopy m (f, ForwardingFlags.construct (some f))).1 = f := by
  exact ⟨rfl, rfl, rfl⟩

/-- Mapping over an Except that came out as ok means the underlying value
was ok. -/
theorem except_map_eq_ok {α β γ : Type} (f : α → β) (e : Except γ α) (b : β)
    (h : e.map f = .ok b) : ∃ a, e = .ok a ∧ b = f a := by
  rcases e with err | a
  · simp [Except.map] at h
  · refine ⟨a, rfl, ?_⟩
    simpa [Except.map] using h.symm

/-- Reduction of the base constructor on a non-empty key id component. -/
theorem construct_comp_ok (ty : KeyType) (c : NameComponent) (h : c.valueSize ≠ 0) :
    KeyParams.construct ty (.comp c) =
      .ok { keyType_ := ty, keyIdType_ := KeyIdType.USER_SPECIFIED, keyId_ := c } := by
  have hne : ¬ (c.getValue.length = 0) := h
  simp [KeyParams.construct, hne]

/-- Reduction of the base constructor on an empty key id component. -/
theorem construct_comp_err (ty : KeyType) (c : NameComponent) (h : c.valueSize = 0) :
    KeyParams.construct ty (.comp c) = .error "KeyParams: keyId is empty" := by
  have he : c.getValue.length = 0 := h
  simp [KeyParams.construct, he]

/-- C3: for every variant, construction with no arguments succeeds, with
keyIdType RANDOM, the per-variant default size (2048 / 256 / 64) and the
per-variant key type tag (RSA / ECDSA / AES). -/
theorem c3_no_argument_defaults :
    (∃ p, RsaKeyParams .undef .undef = .ok p ∧
      p.getKeyIdType = KeyIdType.RANDOM ∧
      p.getKeySize = .num RsaKeyParams.getDefaultSize ∧
      p.getKeyType = RsaKeyParams.getType) ∧
    (∃ p, EcdsaKeyParams .undef .undef = .ok p ∧
      p.getKeyIdType = KeyIdType.RANDOM ∧
      p.getKeySize = .num EcdsaKeyParams.getDefaultSize ∧
      p.getKeyType = EcdsaKeyParams.getType) ∧
    (∃ p, AesKeyParams .undef .undef = .ok p ∧
      p.getKeyIdType = KeyIdType.RANDOM ∧
      p.getKeySize = .num AesKeyParams.getDefaultSize ∧
      p.getKeyType = AesKeyParams.getType) :=
  ⟨⟨_, rfl, rfl, rfl, rfl⟩, ⟨_, rfl, rfl, rfl, rfl⟩, ⟨_, rfl, rfl, rfl, rfl⟩⟩

/-- C10: for every variant, when the first constructor argument is absent
(undefined), construction succeeds for every second argument whatsoever
(the second argument is never read), with keyIdType RANDOM and the default
size; in particular no second argument value can cause a failure. -/
theorem c10_undef_first_argument_ignores_second (arg2 : JsVal) :
    (∃ p, RsaKeyParams .undef arg2 = .ok p ∧
      p.getKeyIdType = KeyIdType.RANDOM ∧
      p.getKeySize = .num RsaKeyParams.getDefaultSize) ∧
    (∃ p, EcdsaKeyParams .undef arg2 = .ok p ∧
      p.getKeyIdType = KeyIdType.RANDOM ∧
      p.getKeySize = .num EcdsaKeyParams.getDefaultSize) ∧
    (∃ p, AesKeyParams .undef arg2 = .ok p ∧
      p.getKeyIdType = KeyIdType.RANDOM ∧
      p.getKeySize = .num AesKeyParams.getDefaultSize) :=
  ⟨⟨_, rfl, rfl, rfl⟩, ⟨_, rfl, rfl, rfl⟩, ⟨_, rfl, rfl, rfl⟩⟩

/-- Counterexample to C6 as stated: supplying keyIdType USER_SPECIFIED as
the second argument with the size argument absent does NOT fail; the code
ignores the second argument entirely and succeeds with RANDOM and the
default size. -/
theorem c6_counterexample_undef_size_user_specified_succeeds :
    RsaKeyParams .undef (.num KeyIdType.USER_SPECIFIED) =
      .ok { keyType_ := KeyType.RSA, keyIdType_ := KeyIdType.RANDOM,
            keyId_ := NameComponent.mkEmpty, size_ := .num 2048 } := rfl

/-- C6 (amended): for every variant, constructing through the size/policy
shape with keyIdType USER_SPECIFIED fails with the InvalidArgument
condition whenever the size argument is supplied; when the size argument
is absent the second argument is ignored and construction succeeds with
keyIdType RANDOM and the default size. -/
theorem c6_amended_user_specified_keyIdType_rejected (n : Nat) :
    (RsaKeyParams (.num n) (.num KeyIdType.USER_SPECIFIED) =
        .error "KeyParams: KeyIdType is USER_SPECIFIED" ∧
      EcdsaKeyParams (.num n) (.num KeyIdType.USER_SPECIFIED) =
        .error "KeyParams: KeyIdType is USER_SPECIFIED" ∧
      AesKeyParams (.num n) (.num KeyIdType.USER_SPECIFIED) =
        .error "KeyParams: KeyIdType is USER_SPECIFIED") ∧
    ((∃ p, RsaKeyParams .undef (.num KeyIdType.USER_SPECIFIED) = .ok p ∧
        p.getKeyIdType = KeyIdType.RANDOM ∧
        p.getKeySize = .num RsaKeyParams.getDefaultSize) ∧
      (∃ p, EcdsaKeyParams .undef (.num KeyIdType.USER_SPECIFIED) = .ok p ∧
        p.getKeyIdType = KeyIdType.RANDOM ∧
        p.getKeySize = .num EcdsaKeyParams.getDefaultSize) ∧
      (∃ p, AesKeyParams .undef (.num KeyIdType.USER_SPECIFIED) = .ok p ∧
        p.getKeyIdType = KeyIdType.RANDOM ∧
        p.getKeySize = .num AesKeyParams.getDefaultSize)) :=
  ⟨⟨rfl, rfl, rfl⟩,
    ⟨_, rfl, rfl, rfl⟩, ⟨_, rfl, rfl, rfl⟩, ⟨_, rfl, rfl, rfl⟩⟩

/-- Inversion of a successful base construction from a numeric key id
type. -/
theorem construct_num_ok_inv (ty : KeyType) (m : Nat) (base : KeyParams)
    (h : KeyParams.construct ty (.num m) = .ok base) :
    base.keyIdType_ = m ∧ m ≠ KeyIdType.USER_SPECIFIED ∧
      base.keyId_ = NameComponent.mkEmpty := by
  by_cases hm : m = KeyIdType.USER_SPECIFIED
  · simp [KeyParams.construct, hm] at h
  · have hred : KeyParams.construct ty (.num m) =
        .ok { keyType_ := ty, keyIdType_ := m, keyId_ := NameComponent.mkEmpty } := by
      simp [KeyParams.construct, hm]
    rw [hred] at h
    injection h with h1
    subst h1
    exact ⟨rfl, hm, rfl⟩

/-- Inversion of a successful base construction from a key id component. -/
theorem construct_comp_ok_inv (ty : KeyType) (c : NameComponent) (base : KeyParams)
    (h : KeyParams.construct ty (.comp c) = .ok base) :
    base.keyIdType_ = KeyIdType.USER_SPECIFIED ∧ base.keyId_ = c ∧ c.valueSize ≠ 0 := by
  by_cases hc : c.valueSize = 0
  · rw [construct_comp_err ty c hc] at h
    exact Except.noConfusion h
  · rw [construct_comp_ok ty c hc] at h
    injection h with h1
    subst h1
    exact ⟨rfl, rfl, hc⟩

/-- The C8 property for the RsaKeyParams constructor. -/
theorem rsa_ok_spec (a b : JsVal) (p : VariantKeyParams)
    (h : RsaKeyParams a b = .ok p) :
    (p.getKeyIdType = KeyIdType.USER_SPECIFIED ↔ explicitKeyIdSupplied a b = true) ∧
    (p.getKeyIdType ≠ KeyIdType.USER_SPECIFIED → p.getKeyId = NameComponent.mkEmpty) := by
  rcases a with _ | n | c
  · simp only [RsaKeyParams] at h
    obtain ⟨base, hb, rfl⟩ := except_map_eq_ok _ _ _ h
    obtain ⟨hkt, hne, hid⟩ := construct_num_ok_inv _ _ _ hb
    refine ⟨⟨fun hus => ?_, fun hexp => ?_⟩, fun _ => hid⟩
    · have hus2 : base.keyIdType_ = KeyIdType.USER_SPECIFIED := hus
      rw [hkt] at hus2
      exact absurd hus2 hne
    · rcases b with _ | m | d <;> simp [explicitKeyIdSupplied] at hexp
  · simp only [RsaKeyParams] at h
    rcases b with _ | m | d
    · obtain ⟨base, hb, rfl⟩ := except_map_eq_ok _ _ _ h
      obtain ⟨hkt, hne, hid⟩ := construct_num_ok_inv _ _ _ hb
      refine ⟨⟨fun hus => ?_, fun hexp => ?_⟩, fun _ => hid⟩
      · have hus2 : base.keyIdType_ = KeyIdType.USER_SPECIFIED := hus
        rw [hkt] at hus2
        exact absurd hus2 hne
      · simp [explicitKeyIdSupplied] at hexp
    · obtain ⟨base, hb, rfl⟩ := except_map_eq_ok _ _ _ h
      obtain ⟨hkt, hne, hid⟩ := construct_num_ok_inv _ _ _ hb
      refine ⟨⟨fun hus => ?_, fun hexp => ?_⟩, fun _ => hid⟩
      · have hus2 : base.keyIdType_ = KeyIdType.USER_SPECIFIED := hus
        rw [hkt] at hus2
        exact absurd hus2 hne
      · simp [explicitKeyIdSupplied] at hexp
    · obtain ⟨base, hb, rfl⟩ := except_map_eq_ok _ _ _ h
      obtain ⟨hkt, hid, hdne⟩ := construct_comp_ok_inv _ _ _ hb
      refine ⟨⟨fun _ => ?_, fun _ => hkt⟩, fun hne => absurd hkt hne⟩
      simpa [explicitKeyIdSupplied] using hdne
  · simp only [RsaKeyParams] at h
    obtain ⟨base, hb, rfl⟩ := except_map_eq_ok _ _ _ h
    obtain ⟨hkt, hid, hcne⟩ := construct_comp_ok_inv _ _ _ hb
    refine ⟨⟨fun _ => ?_, fun _ => hkt⟩, fun hne => absurd hkt hne⟩
    rcases b with _ | m | d <;> simpa [explicitKeyIdSupplied] using hcne

/-- The C8 property for the EcdsaKeyParams constructor. -/
theorem ecdsa_ok_spec (a b : JsVal) (p : VariantKeyParams)
    (h : EcdsaKeyParams a b = .ok p) :
    (p.getKeyIdType = KeyIdType.USER_SPECIFIED ↔ explicitKeyIdSupplied a b = true) ∧
    (p.getKeyIdType ≠ KeyIdType.USER_SPECIFIED → p.getKeyId = NameComponent.mkEmpty) := by
  rcases a with _ | n | c
  · simp only [EcdsaKeyParams] at h
    obtain ⟨base, hb, rfl⟩ := except_map_eq_ok _ _ _ h
    obtain ⟨hkt, hne, hid⟩ := construct_num_ok_inv _ _ _ hb
    refine ⟨⟨fun hus => ?_, fun hexp => ?_⟩, fun _ => hid⟩
    · have hus2 : base.keyIdType_ = KeyIdType.USER_SPECIFIED := hus
      rw [hkt] at hus2
      exact absurd hus2 hne
    · rcases b with _ | m | d <;> simp [explicitKeyIdSupplied] at hexp
  · simp only [EcdsaKeyParams] at h
    rcases b with _ | m | d
    · obtain ⟨base, hb, rfl⟩ := except_map_eq_ok _ _ _ h
      obtain ⟨hkt, hne, hid⟩ := construct_num_ok_inv _ _ _ hb
      refine ⟨⟨fun hus => ?_, fun hexp => ?_⟩, fun _ => hid⟩
      · have hus2 : base.keyIdType_ = KeyIdType.USER_SPECIFIED := hus
        rw [hkt] at hus2
        exact absurd hus2 hne
      · simp [explicitKeyIdSupplied] at hexp
    · obtain ⟨base, hb, rfl⟩ := except_map_eq_ok _ _ _ h
      obtain ⟨hkt, hne, hid⟩ := construct_num_ok_inv _ _ _ hb
      refine ⟨⟨fun hus => ?_, fun hexp => ?_⟩, fun _ => hid⟩
      · have hus2 : base.keyIdType_ = KeyIdType.USER_SPECIFIED := hus
        rw [hkt] at hus2
        exact absurd hus2 hne
      · simp [explicitKeyIdSupplied] at hexp
    · obtain ⟨base, hb, rfl⟩ := except_map_eq_ok _ _ _ h
      obtain ⟨hkt, hid, hdne⟩ := construct_comp_ok_inv _ _ _ hb
      refine ⟨⟨fun _ => ?_, fun _ => hkt⟩, fun hne => absurd hkt hne⟩
      simpa [explicitKeyIdSupplied] using hdne
  · simp only [EcdsaKeyParams] at h
    obtain ⟨base, hb, rfl⟩ := except_map_eq_ok _ _ _ h
    obtain ⟨hkt, hid, hcne⟩ := construct_comp_ok_inv _ _ _ hb
    refine ⟨⟨fun _ => ?_, fun _ => hkt⟩, fun hne => absurd hkt hne⟩
    rcases b with _ | m | d <;> simpa [explicitKeyIdSupplied] using hcne

/-- The C8 property for the AesKeyParams constructor. -/
theorem aes_ok_spec (a b : JsVal) (p : VariantKeyParams)
    (h : AesKeyParams a b = .ok p) :
    (p.getKeyIdType = KeyIdType.USER_SPECIFIED ↔ explicitKeyIdSupplied a b = true) ∧
    (p.getKeyIdType ≠ KeyIdType.USER_SPECIFIED → p.getKeyId = NameComponent.mkEmpty) := by
  rcases a with _ | n | c
  · simp only [AesKeyParams] at h
    obtain ⟨base, hb, rfl⟩ := except_map_eq_ok _ _ _ h
    obtain ⟨hkt, hne, hid⟩ := construct_num_ok_inv _ _ _ hb
    refine ⟨⟨fun hus => ?_, fun hexp => ?_⟩, fun _ => hid⟩
    · have hus2 : base.keyIdType_ = KeyIdType.USER_SPECIFIED := hus
      rw [hkt] at hus2
      exact absurd hus2 hne
    · rcases b with _ | m | d <;> simp [explicitKeyIdSupplied] at hexp
  · simp only [AesKeyParams] at h
    rcases b with _ | m | d
    · obtain ⟨base, hb, rfl⟩ := except_map_eq_ok _ _ _ h
      obtain ⟨hkt, hne, hid⟩ := construct_num_ok_inv _ _ _ hb
      refine ⟨⟨fun hus => ?_, fun hexp => ?_⟩, fun _ => hid⟩
      · have hus2 : base.keyIdType_ = KeyIdType.USER_SPECIFIED := hus
        rw [hkt] at hus2
        exact absurd hus2 hne
      · simp [explicitKeyIdSupplied] at hexp
    · obtain ⟨base, hb, rfl⟩ := except_map_eq_ok _ _ _ h
      obtain ⟨hkt, hne, hid⟩ := construct_num_ok_inv _ _ _ hb
      refine ⟨⟨fun hus => ?_, fun hexp => ?_⟩, fun _ => hid⟩
      · have hus2 : base.keyIdType_ = KeyIdType.USER_SPECIFIED := hus
        rw [hkt] at hus2
        exact absurd hus2 hne
      · simp [explicitKeyIdSupplied] at hexp
    · obtain ⟨base, hb, rfl⟩ := except_map_eq_ok _ _ _ h
      obtain ⟨hkt, hid, hdne⟩ := construct_comp_ok_inv _ _ _ hb
      refine ⟨⟨fun _ => ?_, fun _ => hkt⟩, fun hne => absurd hkt hne⟩
      simpa [explicitKeyIdSupplied] using hdne
  · simp only [AesKeyParams] at h
    obtain ⟨base, hb, rfl⟩ := except_map_eq_ok _ _ _ h
    obtain ⟨hkt, hid, hcne⟩ := construct_comp_ok_inv _ _ _ hb
    refine ⟨⟨fun _ => ?_, fun _ => hkt⟩, fun hne => absurd hkt hne⟩
    rcases b with _ | m | d <;> simpa [explicitKeyIdSupplied] using hcne

/-- C8: for every successfully constructed KeyParams value, of any variant
and through either constructor shape, getKeyIdType is USER_SPECIFIED
exactly when an explicit non-empty key id was supplied at construction,
and when getKeyIdType is not USER_SPECIFIED the stored key id is the empty
placeholder component. -/
theorem c8_user_specified_iff_explicit_keyId (a b : JsVal) (p : VariantKeyParams)
    (h : RsaKeyParams a b = .ok p ∨ EcdsaKeyParams a b = .ok p ∨
      AesKeyParams a b = .ok p) :
    (p.getKeyIdType = KeyIdType.USER_SPECIFIED ↔ explicitKeyIdSupplied a b = true) ∧
    (p.getKeyIdType ≠ KeyIdType.USER_SPECIFIED → p.getKeyId = NameComponent.mkEmpty) := by
  rcases h with h | h | h
  · exact rsa_ok_spec a b p h
  · exact ecdsa_ok_spec a b p h
  · exact aes_ok_spec a b p h

/-- Witness for C8: the default RsaKeyParams construction. -/
theorem c8_user_specified_iff_explicit_keyId_witness :
    ((({ keyType_ := KeyType.RSA, keyIdType_ := KeyIdType.RANDOM,
          keyId_ := NameComponent.mkEmpty, size_ := JsVal.num 2048 } :
        VariantKeyParams).getKeyIdType = KeyIdType.USER_SPECIFIED ↔
      explicitKeyIdSupplied .undef .undef = true) ∧
    ((({ keyType_ := KeyType.RSA, keyIdType_ := KeyIdType.RANDOM,
          keyId_ := NameComponent.mkEmpty, size_ := JsVal.num 2048 } :
        VariantKeyParams).getKeyIdType ≠ KeyIdType.USER_SPECIFIED) →
      ({ keyType_ := KeyType.RSA, keyIdType_ := KeyIdType.RANDOM,
          keyId_ := NameComponent.mkEmpty, size_ := JsVal.num 2048 } :
        VariantKeyParams).getKeyId = NameComponent.mkEmpty)) :=
  c8_user_specified_iff_explicit_keyId .undef .undef _ (Or.inl rfl)

/-- C4: for every variant, constructing with an explicit non-empty key id
succeeds with keyIdType USER_SPECIFIED and the supplied key id; the size
is the per-variant default when the size argument is omitted and the
supplied size otherwise. -/
theorem c4_explicit_keyId_construction (c : NameComponent) (h : c.valueSize ≠ 0) :
    ((∃ p, RsaKeyParams (.comp c) .undef = .ok p ∧
        p.getKeyIdType = KeyIdType.USER_SPECIFIED ∧ p.getKeyId = c ∧
        p.getKeySize = .num RsaKeyParams.getDefaultSize) ∧
      (∀ n : Nat, ∃ p, RsaKeyParams (.comp c) (.num n) = .ok p ∧
        p.getKeyIdType = KeyIdType.USER_SPECIFIED ∧ p.getKeyId = c ∧
        p.getKeySize = .num n)) ∧
    ((∃ p, EcdsaKeyParams (.comp c) .undef = .ok p ∧
        p.getKeyIdType = KeyIdType.USER_SPECIFIED ∧ p.getKeyId = c ∧
        p.getKeySize = .num EcdsaKeyParams.getDefaultSize) ∧
      (∀ n : Nat, ∃ p, EcdsaKeyParams (.comp c) (.num n) = .ok p ∧
        p.getKeyIdType = KeyIdType.USER_SPECIFIED ∧ p.getKeyId = c ∧
        p.getKeySize = .num n)) ∧
    ((∃ p, AesKeyParams (.comp c) .undef = .ok p ∧
        p.getKeyIdType = KeyIdType.USER_SPECIFIED ∧ p.getKeyId = c ∧
        p.getKeySize = .num AesKeyParams.getDefaultSize) ∧
      (∀ n : Nat, ∃ p, AesKeyParams (.comp c) (.num n) = .ok p ∧
        p.getKeyIdType = KeyIdType.USER_SPECIFIED ∧ p.getKeyId = c ∧
        p.getKeySize = .num n)) := by
  refine ⟨⟨?_, fun n => ?_⟩, ⟨?_, fun n => ?_⟩, ⟨?_, fun n => ?_⟩⟩
  · refine ⟨{ keyType_ := KeyType.RSA,
              keyIdType_ := KeyIdType.USER_SPECIFIED,
              keyId_ := c,
              size_ := .num RsaKeyParams.getDefaultSize }, ?_, rfl, rfl, rfl⟩
    simp [RsaKeyParams, RsaKeyParams.getType, construct_comp_ok KeyType.RSA c h, Except.map]
  · refine ⟨{ keyType_ := KeyType.RSA,
              keyIdType_ := KeyIdType.USER_SPECIFIED,
              keyId_ := c,
              size_ := .num n }, ?_, rfl, rfl, rfl⟩
    simp [RsaKeyParams, RsaKeyParams.getType, construct_comp_ok KeyType.RSA c h, Except.map]
  · refine ⟨{ keyType_ := KeyType.ECDSA,
              keyIdType_ := KeyIdType.USER_SPECIFIED,
              keyId_ := c,
              size_ := .num EcdsaKeyParams.getDefaultSize }, ?_, rfl, rfl, rfl⟩
    simp [EcdsaKeyParams, EcdsaKeyParams.getType, construct_comp_ok KeyType.ECDSA c h, Except.map]
  · refine ⟨{ keyType_ := KeyType.ECDSA,
              keyIdType_ := KeyIdType.USER_SPECIFIED,
              keyId_ := c,
              size_ := .num n }, ?_, rfl, rfl, rfl⟩
    simp [EcdsaKeyParams, EcdsaKeyParams.getType, construct_comp_ok KeyType.ECDSA c h, Except.map]
  · refine ⟨{ keyType_ := KeyType.AES,
              keyIdType_ := KeyIdType.USER_SPECIFIED,
              keyId_ := c,
              size_ := .num AesKeyParams.getDefaultSize }, ?_, rfl, rfl, rfl⟩
    simp [AesKeyParams, AesKeyParams.getType, construct_comp_ok KeyType.AES c h, Except.map]
  · refine ⟨{ keyType_ := KeyType.AES,
              keyIdType_ := KeyIdType.USER_SPECIFIED,
              keyId_ := c,
              size_ := .num n }, ?_, rfl, rfl, rfl⟩
    simp [AesKeyParams, AesKeyParams.getType, construct_comp_ok KeyType.AES c h, Except.map]

/-- Witness for C4 at the one-byte component [1]. -/
theorem c4_explicit_keyId_construction_witness :
    (NameComponent.mk [1]).valueSize ≠ 0 ∧
    (∃ p, RsaKeyParams (.comp (NameComponent.mk [1])) .undef = .ok p ∧
      p.getKeyIdType = KeyIdType.USER_SPECIFIED ∧ p.getKeyId = NameComponent.mk [1] ∧
      p.getKeySize = .num RsaKeyParams.getDefaultSize) :=
  ⟨by decide, (c4_explicit_keyId_construction (NameComponent.mk [1]) (by decide)).1.1⟩

/-- C5: for every variant and every second argument, constructing with an
explicitly supplied empty key id fails with the InvalidArgument condition
(the JS throw with this message), and the Except result carries no
KeyParams value at all. -/
theorem c5_empty_keyId_rejected (c : NameComponent) (h : c.valueSize = 0) (arg2 : JsVal) :
    RsaKeyParams (.comp c) arg2 = .error "KeyParams: keyId is empty" ∧
    EcdsaKeyParams (.comp c) arg2 = .error "KeyParams: keyId is empty" ∧
    AesKeyParams (.comp c) arg2 = .error "KeyParams: keyId is empty" := by
  refine ⟨?_, ?_, ?_⟩
  · simp [RsaKeyParams, construct_comp_err RsaKeyParams.getType c h, Except.map]
  · simp [EcdsaKeyParams, construct_comp_err EcdsaKeyParams.getType c h, Except.map]
  · simp [AesKeyParams, construct_comp_err AesKeyParams.getType c h, Except.map]

/-- Witness for C5 at the empty component. -/
theorem c5_empty_keyId_rejected_witness :
    NameComponent.mkEmpty.valueSize = 0 ∧
    RsaKeyParams (.comp NameComponent.mkEmpty) .undef =
      .error "KeyParams: keyId is empty" ∧
    EcdsaKeyParams (.comp NameComponent.mkEmpty) .undef =
      .error "KeyParams: keyId is empty" ∧
    AesKeyParams (.comp NameComponent.mkEmpty) .undef =
      .error "KeyParams: keyId is empty" :=
  ⟨rfl, c5_empty_keyId_rejected NameComponent.mkEmpty rfl .undef⟩

end NdnJs
